import Mathlib

/-!
Shallow embedding of the WorQ broker core (worq/core.py).

The embedding translates `Broker` and the `AbstractMessageQueue` contract
into pure Lean functions over an explicit backend state.  Fallible Python
code is rendered with `Except`; a raised exception is an `Except.error`
value.  The repository runs on Python 2 (it imports `cPickle` and uses
`iteritems`), so Python 2 comparison semantics are embedded where they
matter: in Python 2, `None` compares smaller than every number, hence
`None < 0` is `True`.

The modules `worq/const.py` and `worq/task.py` are not part of the sources
given here; the few objects the core needs from them (the status value
enumeration, the expiry sentinel, `FunctionTask`, `DeferredResult`, task
invocation) are modelled from the specification, each marked
`Modelled from the spec:` in its doc comment.  Backend method bodies are
likewise modelled from the contract docstrings of `AbstractMessageQueue`,
since only the abstract class is in the sources.
-/

namespace WorqModel

/-- Association-list lookup keyed by strings; models a Python dict read. -/
def alookup {α : Type} (k : String) : List (String × α) → Option α
  | [] => none
  | (k2, v) :: rest => if k2 = k then some v else alookup k rest

/-- Association-list removal of a key; models a Python dict delete. -/
def aremove {α : Type} (k : String) : List (String × α) → List (String × α)
  | [] => []
  | (k2, v) :: rest => if k2 = k then aremove k rest else (k2, v) :: aremove k rest

/-- Modelled from the spec: a universe of Python values.  `worq/const.py` is
not in the sources, so the expiry sentinel `TASK_EXPIRED` is modelled as a
distinguished singleton whose pickle round-trip preserves identity (a
module-level object pickles by reference).  `pickled o` is the byte string
`dumps(o)` produced by `Broker.serialize`; `corrupt n` stands for a byte
string that `loads` cannot parse. -/
inductive PyObj : Type where
  | str : String → PyObj
  | int : Int → PyObj
  | bool : Bool → PyObj
  | pynone : PyObj
  | taskExpired : PyObj
  | pickled : PyObj → PyObj
  | corrupt : Nat → PyObj
  deriving DecidableEq

/-- Python truthiness of the modelled values, as used by
`options.get(\x27result_status\x27, False) or ...` in `Broker.enqueue`. -/
def PyObj.truthy : PyObj → Bool
  | .str s => s ≠ ""
  | .int n => n ≠ 0
  | .bool b => b
  | .pynone => false
  | .taskExpired => true
  | .pickled _ => true
  | .corrupt _ => true

/-- Exceptions raised by the embedded core.  `taskExpired` carries the four
arguments of `TaskExpired(task.name, self.name, task.id, cause)`;
`stopWorker` is the internal `_StopWorker` control signal. -/
inductive PyErr : Type where
  | valueError : String → PyErr
  | keyError : String → PyErr
  | taskExpired : String → String → String → String → PyErr
  | unpicklingError : PyErr
  | stopWorker : PyErr
  deriving DecidableEq

/-- Modelled from the spec: the fixed status enumeration `STATUS_VALUES`
from `worq/const.py` (not in the sources) — a small fixed set of sentinel
strings; the exact members are irrelevant, only that they are plain
strings, never pickle blobs. -/
def STATUS_VALUES : List PyObj := [PyObj.str "pending", PyObj.str "started"]

/-- Modelled from the spec: `FunctionTask` from `worq/task.py` (not in the
sources) — name, id token, arguments, and the options mapping (a dict, so
keys are unique). -/
structure FunctionTask where
  name : String
  id : String
  args : List PyObj
  kwargs : List (String × PyObj)
  options : List (String × PyObj)
  deriving DecidableEq

/-- Modelled from the spec: the derived liveness extension interval of a
task; the concrete default base rate does not matter for any claim here. -/
def FunctionTask.heartrate (t : FunctionTask) : Int :=
  match alookup "heartrate" t.options with
  | some (PyObj.int n) => n
  | _ => 30

/-- Modelled from the spec: `DeferredResult` from `worq/task.py` (not in
the sources) — a claim ticket holding id, name and heartrate.  Its broker
back-reference is weak (non-owning), so, following the design notes, the
broker is passed explicitly at call time instead of being stored. -/
structure DeferredResult where
  id : String
  name : String
  heartrate : Int
  deriving DecidableEq

/-- An object with `id` and `name` attributes as accepted by
`Broker.pop_result` (a task or a deferred result). -/
structure TaskRef where
  id : String
  name : String
  deriving DecidableEq

/-- Modelled from the spec: the behaviour of a registered task callable —
either the reserved stop task (which raises `_StopWorker` when invoked) or
a user function with some invocation outcome. -/
inductive TaskFunc : Type where
  | stopTask : TaskFunc
  | userFunc : Except PyErr Unit → TaskFunc

/-- The reserved name of the stop task: `_stop_task.name` in the source. -/
def stopTaskName : String := "<stop_task>"

/-- A serialized task message in the backend queue: either the pickle of a
task (what `Broker.serialize` produces at task type) or corrupt bytes. -/
inductive TaskMsg : Type where
  | pickled : FunctionTask → TaskMsg
  | corrupt : Nat → TaskMsg
  deriving DecidableEq

/-- Modelled from the spec: the observable state of an
`AbstractMessageQueue` implementation.  Only the abstract contract is in
the sources; the fields realise the stores its eight operations act on.
`placeholders` records for which task ids a result placeholder was created
at enqueue time. -/
structure MessageQueue where
  queue : List (String × TaskMsg)
  results : List (String × PyObj)
  statuses : List (String × PyObj)
  tasksets : List (String × List PyObj)
  placeholders : List String
  deriving DecidableEq

/-- Modelled from the spec: contract operation 1 — atomically store a
result placeholder (only when `result` is not absent) and enqueue the
task message. -/
def MessageQueue.enqueue_task (st : MessageQueue) (task_id : String)
    (message : TaskMsg) (result : Option DeferredResult) : MessageQueue :=
  { st with
    queue := st.queue ++ [(task_id, message)]
    placeholders :=
      if result.isSome then task_id :: st.placeholders else st.placeholders }

/-- Modelled from the spec: contract operation 2 — atomically remove and
return one `(task_id, message)` pair, or `None` once the timeout elapses
with the queue empty (the blocking wait is linearised away). -/
def MessageQueue.get (st : MessageQueue) (_timeout : Option Int) :
    Option (String × TaskMsg) × MessageQueue :=
  match st.queue with
  | [] => (none, st)
  | m :: rest => (some m, { st with queue := rest })

/-- Modelled from the spec: contract operation 4 (write half) — a
last-write-wins keyed status store. -/
def MessageQueue.set_status (st : MessageQueue) (task_id : String)
    (message : PyObj) : MessageQueue :=
  { st with statuses := (task_id, message) :: st.statuses }

/-- Modelled from the spec: contract operation 4 (read half). -/
def MessageQueue.get_status (st : MessageQueue) (task_id : String) :
    Option PyObj :=
  alookup task_id st.statuses

/-- Modelled from the spec: contract operation 5 — store the final result
message (the retention timeout does not change the value observed). -/
def MessageQueue.set_result (st : MessageQueue) (task_id : String)
    (message : PyObj) (_timeout : Option Int) : MessageQueue :=
  { st with results := (task_id, message) :: st.results }

/-- Modelled from the spec: contract operation 6 — atomically read and
remove the stored result message; `None` when nothing is stored after the
wait (the bounded/indefinite wait is linearised away). -/
def MessageQueue.pop_result (st : MessageQueue) (task_id : String)
    (_timeout : Option Int) : Option PyObj × MessageQueue :=
  (alookup task_id st.results, { st with results := aremove task_id st.results })

/-- Modelled from the spec: contract operation 7 — force the stored result
to the expiry token so any later pop observes expiry. -/
def MessageQueue.discard_result (st : MessageQueue) (task_id : String)
    (task_expired_token : PyObj) : MessageQueue :=
  { st with results := (task_id, task_expired_token) :: st.results }

/-- Modelled from the spec: contract operation 8 — atomically append one
subtask result; exactly the call that brings the count to `num_tasks`
receives the full unordered collection, every other call receives `None`. -/
def MessageQueue.update_taskset (st : MessageQueue) (taskset_id : String)
    (num_tasks : Nat) (message : PyObj) (_timeout : Option Int) :
    Option (List PyObj) × MessageQueue :=
  let results := message :: (alookup taskset_id st.tasksets).getD []
  if results.length = num_tasks then
    (some results, { st with tasksets := aremove taskset_id st.tasksets })
  else
    (none, { st with tasksets := (taskset_id, results) :: st.tasksets })

/-- The broker: queue name plus the task registry, initialised in
`Broker.__init__` with the reserved stop task already registered. -/
structure Broker where
  name : String
  tasks : List (String × TaskFunc)

/-- `Broker.__init__(message_queue)`: registry starts as
`{_stop_task.name: _stop_task}` and the name is taken from the queue. -/
def Broker.init (queue_name : String) : Broker :=
  { name := queue_name, tasks := [(stopTaskName, TaskFunc.stopTask)] }

/-- `Broker.task_options`: the recognized task option keys. -/
def Broker.task_options : List String :=
  ["result_status", "result_timeout", "heartrate", "taskset", "on_error", "size"]

/-- `Broker.serialize`: `dumps(obj, HIGHEST_PROTOCOL)`. -/
def Broker.serialize (_ : Broker) (obj : PyObj) : PyObj := PyObj.pickled obj

/-- `Broker.deserialize`: `loads(message)`; raises on anything that is not
a pickle produced by `serialize`. -/
def Broker.deserialize (_ : Broker) (message : PyObj) : Except PyErr PyObj :=
  match message with
  | PyObj.pickled o => Except.ok o
  | _ => Except.error PyErr.unpicklingError

/-- `Broker.serialize` applied to a task object (same `dumps`, typed at
task messages in this embedding). -/
def serializeTask (t : FunctionTask) : TaskMsg := TaskMsg.pickled t

/-- `Broker.deserialize` applied to a queued task message. -/
def deserializeTask : TaskMsg → Except PyErr FunctionTask
  | TaskMsg.pickled t => Except.ok t
  | TaskMsg.corrupt _ => Except.error PyErr.unpicklingError

/-- `Broker.expose`: register a mapping of task name to callable (the
`tasks` mapping of a `TaskSpace`, or a single callable as a one-entry
mapping), raising `ValueError` on the first name already present in the
registry.  As in the source, entries seen before the conflicting one stay
registered. -/
def Broker.expose : Broker → List (String × TaskFunc) → Except PyErr Unit × Broker
  | b, [] => (Except.ok (), b)
  | b, (n, f) :: rest =>
    if (alookup n b.tasks).isSome then
      (Except.error (PyErr.valueError
        ("task \x27" ++ n ++ "\x27 conflicts with existing task")), b)
    else Broker.expose { b with tasks := (n, f) :: b.tasks } rest

/-- `set(options) - self.task_options` in `Broker.enqueue`: the option keys
outside the recognized set. -/
def unknownOptions (task : FunctionTask) : List String :=
  (task.options.map Prod.fst).filter (fun k => ! Broker.task_options.contains k)

/-- `options.get(\x27result_status\x27, False) or \x27result_timeout\x27 in
options` in `Broker.enqueue`: whether the task requests result tracking. -/
def wantsResult (task : FunctionTask) : Bool :=
  ((alookup "result_status" task.options).getD (PyObj.bool false)).truthy
    || (alookup "result_timeout" task.options).isSome

/-- `Broker.enqueue`: validate the options against `task_options` (raising
`ValueError` listing the unrecognized keys before any backend call),
serialize the task, build a `DeferredResult` exactly when
`options.get(\x27result_status\x27, False)` is truthy or
`result_timeout` is a key, hand message and result to
`enqueue_task`, and return the result. -/
def Broker.enqueue (b : Broker) (task : FunctionTask) (st : MessageQueue) :
    Except PyErr (Option DeferredResult) × MessageQueue :=
  let unknown_options := unknownOptions task
  if unknown_options ≠ [] then
    (Except.error (PyErr.valueError
      ("unrecognized task options: " ++ String.intercalate ", " unknown_options)), st)
  else
    let message := serializeTask task
    let result :=
      if wantsResult task then
        some { id := task.id, name := task.name, heartrate := task.heartrate }
      else
        none
    (Except.ok result, st.enqueue_task task.id message result)

/-- `Broker.set_status`: serialize the value unless it is one of the fixed
`STATUS_VALUES`, then store it keyed by the task id. -/
def Broker.set_status (b : Broker) (task : TaskRef) (value : PyObj)
    (st : MessageQueue) : MessageQueue :=
  let v := if value ∈ STATUS_VALUES then value else b.serialize value
  st.set_status task.id v

/-- `Broker.status`: read the raw status message; `None` when absent,
unchanged when it is one of `STATUS_VALUES`, deserialized otherwise. -/
def Broker.status (b : Broker) (result : TaskRef) (st : MessageQueue) :
    Except PyErr (Option PyObj) :=
  match st.get_status result.id with
  | none => Except.ok none
  | some message =>
    if message ∈ STATUS_VALUES then Except.ok (some message)
    else (b.deserialize message).map some

/-- `Broker.next_task`: pull one message; `None` on timeout, and a
deserialization failure is logged and swallowed, also yielding `None`. -/
def Broker.next_task (b : Broker) (timeout : Option Int) (st : MessageQueue) :
    Option FunctionTask × MessageQueue :=
  match st.get timeout with
  | (none, st2) => (none, st2)
  | (some (_task_id, message), st2) =>
    match deserializeTask message with
    | Except.ok t => (some t, st2)
    | Except.error _ => (none, st2)

/-- Python 2 comparison `timeout < 0` for an optional numeric timeout: in
Python 2, `None` compares smaller than every number, so `None < 0` is
`True`. -/
def py2LtZero : Option Int → Bool
  | none => true
  | some t => decide (t < 0)

/-- `Broker.pop_result`: reject a timeout that compares below zero (under
Python 2 semantics this includes `None`), then pop the stored message:
absent raises `KeyError(task.id)`; the expiry sentinel — observed directly
or after deserialization — raises
`TaskExpired(task.name, self.name, task.id, cause)`; anything else is
returned deserialized. -/
def Broker.pop_result (b : Broker) (task : TaskRef) (timeout : Option Int)
    (st : MessageQueue) : Except PyErr PyObj × MessageQueue :=
  if py2LtZero timeout then
    (Except.error (PyErr.valueError "negative timeout not supported"), st)
  else
    match st.pop_result task.id timeout with
    | (none, st2) => (Except.error (PyErr.keyError task.id), st2)
    | (some message, st2) =>
      let resultE :=
        if message = PyObj.taskExpired then Except.ok message
        else b.deserialize message
      match resultE with
      | Except.error e => (Except.error e, st2)
      | Except.ok result =>
        if result = PyObj.taskExpired then
          (Except.error (PyErr.taskExpired task.name b.name task.id
            "task expired before a result was returned"), st2)
        else
          (Except.ok result, st2)

/-- `Broker.task_failed`: store the serialized expiry sentinel through
`discard_result`. -/
def Broker.task_failed (b : Broker) (task : TaskRef) (st : MessageQueue) :
    MessageQueue :=
  st.discard_result task.id (b.serialize PyObj.taskExpired)

/-- Modelled from the spec: `FunctionTask.invoke` lives in `worq/task.py`
(not in the sources) — invocation dispatches to the registered callable;
the reserved stop task raises the `_StopWorker` control signal, an
unregistered name is reported through the failure path rather than raised
(the loop is oblivious to task outcomes). -/
def Broker.invoke (b : Broker) (task : FunctionTask) : Except PyErr Unit :=
  match alookup task.name b.tasks with
  | some TaskFunc.stopTask => Except.error PyErr.stopWorker
  | some (TaskFunc.userFunc outcome) => outcome
  | none => Except.ok ()

/-- How a run of `Broker.start_worker` ends: `timedOut` is the normal break
when `next_task` returns `None`; `stopped` is the clean termination after
catching `_StopWorker`; `failed e` is an exception propagating out of the
loop; `fuelOut` is the artefact of bounding the loop by fuel. -/
inductive WorkerExit : Type where
  | timedOut : WorkerExit
  | stopped : WorkerExit
  | failed : PyErr → WorkerExit
  | fuelOut : WorkerExit
  deriving DecidableEq

/-- `Broker.start_worker`: the pull/invoke loop, bounded by fuel.  A `None`
from `next_task` breaks the loop; a `_StopWorker` raised by an invocation
is caught here and ends the run cleanly; any other exception escapes. -/
def Broker.start_worker (fuel : Nat) (b : Broker) (max_wait : Option Int)
    (st : MessageQueue) : WorkerExit × MessageQueue :=
  match fuel with
  | 0 => (WorkerExit.fuelOut, st)
  | fuel + 1 =>
    match b.next_task max_wait st with
    | (none, st2) => (WorkerExit.timedOut, st2)
    | (some task, st2) =>
      match b.invoke task with
      | Except.ok _ => Broker.start_worker fuel b max_wait st2
      | Except.error e =>
        if e = PyErr.stopWorker then (WorkerExit.stopped, st2)
        else (WorkerExit.failed e, st2)

/-- `Broker.stop`: enqueue the sentinel control task
`FunctionTask(_stop_task.name, (), \x7b\x7d, \x7b\x7d)` with id `stop`. -/
def Broker.stop (b : Broker) (st : MessageQueue) : MessageQueue :=
  (b.enqueue { name := stopTaskName, id := "stop", args := [], kwargs := [],
               options := [] } st).2

/-- A sequential run of `update_taskset` calls, one per subtask result
message, collecting each call's return value. -/
def runTasksetUpdates (taskset_id : String) (num_tasks : Nat)
    (timeout : Option Int) :
    List PyObj → MessageQueue → List (Option (List PyObj)) × MessageQueue
  | [], st => ([], st)
  | m :: ms, st =>
    let (out, st2) := st.update_taskset taskset_id num_tasks m timeout
    let (outs, st3) := runTasksetUpdates taskset_id num_tasks timeout ms st2
    (out :: outs, st3)

/-- The empty backend state. -/
def mq0 : MessageQueue :=
  { queue := [], results := [], statuses := [], tasksets := [], placeholders := [] }

/-- A concrete broker over the default queue name. -/
def broker0 : Broker := Broker.init "default"

/-- A concrete task reference. -/
def tref0 : TaskRef := { id := "t1", name := "func" }

/-- A task whose options carry `result_status = False`: the key is present
but its value is falsy. -/
def cexTask : FunctionTask :=
  { name := "func", id := "t1", args := [], kwargs := [],
    options := [("result_status", PyObj.bool false)] }

/-- A task carrying an option key outside the recognized set. -/
def badOptTask : FunctionTask :=
  { name := "func", id := "t1", args := [], kwargs := [],
    options := [("bogus", PyObj.int 1)] }

/-- A backend state holding one stored result message for task `t1`. -/
def mqWithResult (m : PyObj) : MessageQueue := { mq0 with results := [("t1", m)] }

/- ------------------------------------------------------------------ -/
/- Helper lemmas                                                      -/
/- ------------------------------------------------------------------ -/

theorem alookup_cons_self {α : Type} (k : String) (v : α) (l : List (String × α)) :
    alookup k ((k, v) :: l) = some v := by
  simp [alookup]

theorem pickled_not_status (v : PyObj) : PyObj.pickled v ∉ STATUS_VALUES := by
  intro h
  simp [STATUS_VALUES] at h

theorem alookup_isSome_cons {α : Type} (k n : String) (f : α)
    (l : List (String × α)) (h : (alookup k l).isSome) :
    (alookup k ((n, f) :: l)).isSome := by
  by_cases hn : n = k
  · simp [alookup, hn]
  · simpa [alookup, hn] using h

theorem expose_preserves_lookup (k : String) :
    ∀ (sp : List (String × TaskFunc)) (b : Broker),
      (alookup k b.tasks).isSome → (alookup k (Broker.expose b sp).2.tasks).isSome
  | [], b, h => h
  | (n, f) :: rest, b, h => by
    simp only [Broker.expose]
    by_cases hc : (alookup n b.tasks).isSome
    · simpa [hc] using h
    · simpa [hc] using
        expose_preserves_lookup k rest { b with tasks := (n, f) :: b.tasks }
          (alookup_isSome_cons k n f b.tasks h)

theorem expose_conflict_fails (k : String) :
    ∀ (sp : List (String × TaskFunc)) (b : Broker) (f : TaskFunc),
      (alookup k b.tasks).isSome → (k, f) ∈ sp →
      ∃ m, (Broker.expose b sp).1 = Except.error (PyErr.valueError m)
  | [], _, _, _, hmem => absurd hmem (List.not_mem_nil _)
  | (n, g) :: rest, b, f, h, hmem => by
    simp only [Broker.expose]
    by_cases hc : (alookup n b.tasks).isSome
    · exact ⟨"task \x27" ++ n ++ "\x27 conflicts with existing task", by simp [hc]⟩
    · rcases List.mem_cons.1 hmem with heq | hrest
      · exfalso
        apply hc
        have hk : k = n := congrArg Prod.fst heq
        exact hk ▸ h
      · simpa [hc] using
          expose_conflict_fails k rest { b with tasks := (n, g) :: b.tasks } f
            (alookup_isSome_cons k n g b.tasks h) hrest

theorem runTasksetUpdates_cons (tsid : String) (num : Nat) (timeout : Option Int)
    (m : PyObj) (ms : List PyObj) (st : MessageQueue) :
    runTasksetUpdates tsid num timeout (m :: ms) st =
      ((st.update_taskset tsid num m timeout).1 ::
        (runTasksetUpdates tsid num timeout ms
          (st.update_taskset tsid num m timeout).2).1,
       (runTasksetUpdates tsid num timeout ms
          (st.update_taskset tsid num m timeout).2).2) := rfl

theorem runTasksetUpdates_general (tsid : String) (timeout : Option Int) :
    ∀ (ms : List PyObj) (curr : List PyObj) (st : MessageQueue),
      ms ≠ [] →
      (alookup tsid st.tasksets).getD [] = curr →
      (runTasksetUpdates tsid (curr.length + ms.length) timeout ms st).1 =
        List.replicate (ms.length - 1) none ++ [some (ms.reverse ++ curr)]
  | [], _, _, hne, _ => absurd rfl hne
  | [m], curr, st, _, hcurr => by
    simp [runTasksetUpdates, MessageQueue.update_taskset, hcurr]
  | m :: m2 :: ms, curr, st, _, hcurr => by
    have hlen : ¬ ((m :: curr).length = curr.length + (m :: m2 :: ms).length) := by
      simp
    have hupd : st.update_taskset tsid (curr.length + (m :: m2 :: ms).length) m
        timeout = (none, { st with tasksets := (tsid, m :: curr) :: st.tasksets }) := by
      simp only [MessageQueue.update_taskset, hcurr]
      rw [if_neg hlen]
    have hrec := runTasksetUpdates_general tsid timeout (m2 :: ms) (m :: curr)
      { st with tasksets := (tsid, m :: curr) :: st.tasksets }
      (by simp) (by simp [alookup_cons_self])
    have hnum : curr.length + (m :: m2 :: ms).length =
        (m :: curr).length + (m2 :: ms).length := by
      simp
      omega
    rw [runTasksetUpdates_cons, hupd]
    rw [hnum, hrec]
    simp [List.replicate_succ, List.append_assoc]

/- ------------------------------------------------------------------ -/
/- Claim theorems                                                     -/
/- ------------------------------------------------------------------ -/

/-- Claim C1, counterexample: the claim says a handle is returned exactly
when `result_status` or `result_timeout` is a key of the options; but for a
task whose options contain `result_status` with value `False` the key is
present and `Broker.enqueue` still returns `None`. -/
theorem enqueue_present_falsy_counterexample :
    (alookup "result_status" cexTask.options).isSome = true ∧
    (broker0.enqueue cexTask mq0).1 = Except.ok none := by
  constructor
  · rfl
  · rfl

/-- Claim C1, amended: for valid options, `Broker.enqueue` returns a
`DeferredResult` handle exactly when the value of `result_status` is
truthy or `result_timeout` is present (`wantsResult`); otherwise it
returns `None` and hands no result placeholder to the backend. -/
theorem enqueue_result_handle_iff (b : Broker) (t : FunctionTask)
    (st : MessageQueue) (hvalid : unknownOptions t = []) :
    ((b.enqueue t st).1 = Except.ok
      (if wantsResult t then
        some { id := t.id, name := t.name, heartrate := t.heartrate }
      else none)) ∧
    (wantsResult t = false →
      (b.enqueue t st).2.placeholders = st.placeholders) := by
  constructor
  · simp [Broker.enqueue, hvalid]
  · intro hff
    simp [Broker.enqueue, hvalid, hff, MessageQueue.enqueue_task]

/-- Claim C1 amended, witness: a task requesting `result_status = True`
receives a handle; the fire-and-forget task from the counterexample leaves
the placeholder store untouched. -/
theorem enqueue_result_handle_iff_witness :
    (broker0.enqueue
      { name := "func", id := "t1", args := [], kwargs := [],
        options := [("result_status", PyObj.bool true)] } mq0).1 =
      Except.ok (some { id := "t1", name := "func", heartrate := 30 }) ∧
    (broker0.enqueue cexTask mq0).2.placeholders = mq0.placeholders := by
  constructor
  · have h := (enqueue_result_handle_iff broker0
      { name := "func", id := "t1", args := [], kwargs := [],
        options := [("result_status", PyObj.bool true)] } mq0 (by decide)).1
    simpa using h
  · exact (enqueue_result_handle_iff broker0 cexTask mq0 (by decide)).2 (by decide)

/-- Claim C2: under the Python 2 semantics of this code base, `None < 0` is
`True`, so `Broker.pop_result` with `timeout=None` is rejected with the
negative-timeout `ValueError` — contradicting its own docstring, which
promises an indefinite wait for `None`.  A negative timeout is rejected as
specified, and `0` is accepted and delegated to the backend (reaching the
`KeyError` branch on an empty store). -/
theorem pop_result_none_timeout_rejected :
    (broker0.pop_result tref0 none mq0).1 =
      Except.error (PyErr.valueError "negative timeout not supported") ∧
    (broker0.pop_result tref0 (some (-1)) mq0).1 =
      Except.error (PyErr.valueError "negative timeout not supported") ∧
    (broker0.pop_result tref0 (some 0) mq0).1 =
      Except.error (PyErr.keyError "t1") := by
  refine ⟨rfl, rfl, rfl⟩

/-- Claim C3: with a valid timeout, `Broker.pop_result` raises
`KeyError(task.id)` when the backend holds no message, raises
`TaskExpired(task.name, queue, task.id, cause)` when the stored message is
the expiry sentinel (raw or serialized), returns the deserialized result
otherwise, and the not-found and expired outcomes are distinct values. -/
theorem pop_result_outcomes (b : Broker) (t : TaskRef) (timeout : Option Int)
    (st : MessageQueue) (hnn : py2LtZero timeout = false) :
    (alookup t.id st.results = none →
      (b.pop_result t timeout st).1 = Except.error (PyErr.keyError t.id)) ∧
    (alookup t.id st.results = some PyObj.taskExpired →
      (b.pop_result t timeout st).1 = Except.error (PyErr.taskExpired t.name
        b.name t.id "task expired before a result was returned")) ∧
    (alookup t.id st.results = some (PyObj.pickled PyObj.taskExpired) →
      (b.pop_result t timeout st).1 = Except.error (PyErr.taskExpired t.name
        b.name t.id "task expired before a result was returned")) ∧
    (∀ r : PyObj, r ≠ PyObj.taskExpired →
      alookup t.id st.results = some (PyObj.pickled r) →
      (b.pop_result t timeout st).1 = Except.ok r) ∧
    (Except.error (PyErr.keyError t.id) ≠
      (Except.error (PyErr.taskExpired t.name b.name t.id
        "task expired before a result was returned") : Except PyErr PyObj)) := by
  refine ⟨?_, ?_, ?_, ?_, by simp⟩
  · intro h
    simp [Broker.pop_result, MessageQueue.pop_result, hnn, h]
  · intro h
    simp [Broker.pop_result, MessageQueue.pop_result, hnn, h]
  · intro h
    simp [Broker.pop_result, MessageQueue.pop_result, hnn, h, Broker.deserialize]
  · intro r hr h
    simp [Broker.pop_result, MessageQueue.pop_result, hnn, h, Broker.deserialize, hr]

/-- Claim C3, witness: on a store holding a serialized ordinary value the
pop returns that value. -/
theorem pop_result_outcomes_witness :
    (broker0.pop_result tref0 (some 0)
      (mqWithResult (PyObj.pickled (PyObj.str "v")))).1 =
      Except.ok (PyObj.str "v") :=
  (pop_result_outcomes broker0 tref0 (some 0)
      (mqWithResult (PyObj.pickled (PyObj.str "v"))) (by decide)).2.2.2.1
    (PyObj.str "v") (by decide) (by decide)

/-- Claim C4: after `Broker.task_failed`, a `pop_result` for the same task
with any valid timeout observes `TaskExpired` — `task_failed` forces the
stored result to the serialized expiry sentinel immediately. -/
theorem task_failed_then_pop_result_expired (b : Broker) (t : TaskRef)
    (timeout : Option Int) (st : MessageQueue)
    (hnn : py2LtZero timeout = false) :
    (b.pop_result t timeout (b.task_failed t st)).1 =
      Except.error (PyErr.taskExpired t.name b.name t.id
        "task expired before a result was returned") := by
  simp [Broker.pop_result, Broker.task_failed, MessageQueue.discard_result,
    MessageQueue.pop_result, hnn, Broker.serialize, alookup_cons_self,
    Broker.deserialize]

/-- Claim C4, witness: an immediate pop after `task_failed` on the empty
store observes the expired-task error. -/
theorem task_failed_then_pop_result_expired_witness :
    (broker0.pop_result tref0 (some 0) (broker0.task_failed tref0 mq0)).1 =
      Except.error (PyErr.taskExpired "func" "default" "t1"
        "task expired before a result was returned") :=
  task_failed_then_pop_result_expired broker0 tref0 (some 0) mq0 (by decide)

/-- Claim C5: when the options carry keys outside the recognized set,
`Broker.enqueue` fails with a `ValueError` listing the offending keys and
returns the backend state unchanged — validation precedes any backend
interaction. -/
theorem enqueue_unknown_options_rejected (b : Broker) (t : FunctionTask)
    (st : MessageQueue) (hunk : unknownOptions t ≠ []) :
    b.enqueue t st =
      (Except.error (PyErr.valueError ("unrecognized task options: " ++
        String.intercalate ", " (unknownOptions t))), st) := by
  simp [Broker.enqueue, hunk]

/-- Claim C5, witness: a task with the single unrecognized key `bogus` is
rejected with that key in the message and leaves the empty state intact. -/
theorem enqueue_unknown_options_rejected_witness :
    broker0.enqueue badOptTask mq0 =
      (Except.error (PyErr.valueError "unrecognized task options: bogus"), mq0) := by
  have h := enqueue_unknown_options_rejected broker0 badOptTask mq0 (by decide)
  simpa using h

/-- Claim C6: a status written by `Broker.set_status` is read back
unchanged by `Broker.status` through a handle with the same id; values in
`STATUS_VALUES` are stored raw, any other value is stored serialized and
deserialized on read; with nothing stored, `status` returns `None`. -/
theorem status_roundtrip (b : Broker) (t r : TaskRef) (hid : r.id = t.id)
    (v : PyObj) (st : MessageQueue) :
    b.status r (b.set_status t v st) = Except.ok (some v) ∧
    alookup t.id (b.set_status t v st).statuses =
      some (if v ∈ STATUS_VALUES then v else b.serialize v) ∧
    (alookup r.id st.statuses = none → b.status r st = Except.ok none) := by
  refine ⟨?_, ?_, ?_⟩
  · by_cases hv : v ∈ STATUS_VALUES
    · simp [Broker.status, Broker.set_status, MessageQueue.set_status,
        MessageQueue.get_status, hid, alookup_cons_self, hv]
    · simp [Broker.status, Broker.set_status, MessageQueue.set_status,
        MessageQueue.get_status, hid, alookup_cons_self, hv, Broker.serialize,
        Broker.deserialize, pickled_not_status, Except.map]
  · simp [Broker.set_status, MessageQueue.set_status, alookup_cons_self]
  · intro h
    simp [Broker.status, MessageQueue.get_status, h]

/-- Claim C6, witness: a non-enumeration value (`42`) round-trips, and the
empty store reads back as `None`. -/
theorem status_roundtrip_witness :
    broker0.status tref0 (broker0.set_status tref0 (PyObj.int 42) mq0) =
      Except.ok (some (PyObj.int 42)) ∧
    broker0.status tref0 mq0 = Except.ok none := by
  constructor
  · exact (status_roundtrip broker0 tref0 tref0 rfl (PyObj.int 42) mq0).1
  · exact (status_roundtrip broker0 tref0 tref0 rfl (PyObj.int 42) mq0).2.2 (by decide)

/-- Claim C7: `Broker.next_task` returns `None` when the backend get times
out on an empty queue, returns `None` as well when the dequeued message
cannot be deserialized (the failure is swallowed, not raised), and returns
the deserialized task on success. -/
theorem next_task_outcomes (b : Broker) (timeout : Option Int)
    (st : MessageQueue) :
    (st.queue = [] → b.next_task timeout st = (none, st)) ∧
    (∀ tid n rest, st.queue = (tid, TaskMsg.corrupt n) :: rest →
      b.next_task timeout st = (none, { st with queue := rest })) ∧
    (∀ tid task rest, st.queue = (tid, TaskMsg.pickled task) :: rest →
      b.next_task timeout st = (some task, { st with queue := rest })) := by
  refine ⟨?_, ?_, ?_⟩
  · intro h
    simp [Broker.next_task, MessageQueue.get, h]
  · intro tid n rest h
    simp [Broker.next_task, MessageQueue.get, h, deserializeTask]
  · intro tid task rest h
    simp [Broker.next_task, MessageQueue.get, h, deserializeTask]

/-- Claim C7, witness: a corrupt head message yields `None` with the rest
of the queue intact. -/
theorem next_task_outcomes_witness :
    broker0.next_task (some 1) { mq0 with queue := [("t1", TaskMsg.corrupt 7)] } =
      (none, mq0) := by
  have h := (next_task_outcomes broker0 (some 1)
      { mq0 with queue := [("t1", TaskMsg.corrupt 7)] }).2.1 "t1" 7 [] rfl
  simpa using h

/-- Claim C8: the worker loop terminates normally when `next_task` returns
`None`; the stop signal raised by invoking the sentinel control task is
caught by the loop, which then terminates cleanly; and a run of
`start_worker` never ends with the stop signal escaping as a failure. -/
theorem start_worker_loop_behaviour (b : Broker) :
    (∀ (fuel : Nat) (w : Option Int) (st : MessageQueue),
      (Broker.start_worker fuel b w st).1 ≠ WorkerExit.failed PyErr.stopWorker) ∧
    (∀ (fuel : Nat) (w : Option Int) (st : MessageQueue),
      st.queue = [] → fuel ≠ 0 →
      Broker.start_worker fuel b w st = (WorkerExit.timedOut, st)) ∧
    (∀ (fuel : Nat) (w : Option Int) (st : MessageQueue),
      alookup stopTaskName b.tasks = some TaskFunc.stopTask → st.queue = [] →
      fuel ≠ 0 →
      (Broker.start_worker fuel b w (b.stop st)).1 = WorkerExit.stopped) := by
  refine ⟨?_, ?_, ?_⟩
  · intro fuel
    induction fuel with
    | zero => intro w st; simp [Broker.start_worker]
    | succ n ih =>
      intro w st
      simp only [Broker.start_worker]
      split
      · simp
      · split
        · exact ih w _
        · split
          · simp
          · simp_all
  · intro fuel w st hq hf
    cases fuel with
    | zero => exact absurd rfl hf
    | succ n =>
      simp [Broker.start_worker, Broker.next_task, MessageQueue.get, hq]
  · intro fuel w st hreg hq hf
    cases fuel with
    | zero => exact absurd rfl hf
    | succ n =>
      simp [Broker.start_worker, Broker.stop, Broker.enqueue, unknownOptions,
        wantsResult, Broker.task_options, alookup, PyObj.truthy,
        MessageQueue.enqueue_task, hq, Broker.next_task, MessageQueue.get,
        serializeTask, deserializeTask, Broker.invoke, hreg]

/-- Claim C8, witness: with the queue otherwise empty, a worker started
after `Broker.stop` terminates with the clean `stopped` exit, an idle
worker times out, and no run fails with the stop signal. -/
theorem start_worker_loop_behaviour_witness :
    (Broker.start_worker 3 broker0 (some 1) mq0).1 ≠
      WorkerExit.failed PyErr.stopWorker ∧
    Broker.start_worker 3 broker0 (some 1) mq0 = (WorkerExit.timedOut, mq0) ∧
    (Broker.start_worker 3 broker0 (some 1) (broker0.stop mq0)).1 =
      WorkerExit.stopped := by
  refine ⟨(start_worker_loop_behaviour broker0).1 3 (some 1) mq0,
    (start_worker_loop_behaviour broker0).2.1 3 (some 1) mq0 rfl (by decide),
    (start_worker_loop_behaviour broker0).2.2 3 (some 1) mq0 rfl rfl (by decide)⟩

/-- Claim C9: for a fresh taskset and K submitted result messages, the
sequential (linearised) run of `update_taskset` with `num_tasks = K`
returns an absent value on every call except the one that brings the count
to K, which alone receives the full collection — a permutation of the K
submitted messages, so no update is lost. -/
theorem update_taskset_exactly_once (tsid : String) (timeout : Option Int)
    (msgs : List PyObj) (st : MessageQueue)
    (hfresh : alookup tsid st.tasksets = none) (hne : msgs ≠ []) :
    (runTasksetUpdates tsid msgs.length timeout msgs st).1 =
      List.replicate (msgs.length - 1) none ++ [some msgs.reverse] ∧
    msgs.reverse.Perm msgs := by
  constructor
  · have h := runTasksetUpdates_general tsid timeout msgs [] st hne
      (by simp [hfresh])
    simpa using h
  · exact List.reverse_perm msgs

/-- Claim C9, witness: three updates on a fresh taskset of size three —
the first two calls return nothing, the third returns all three messages. -/
theorem update_taskset_exactly_once_witness :
    (runTasksetUpdates "ts" 3 (some 60)
      [PyObj.str "a", PyObj.str "b", PyObj.str "c"] mq0).1 =
      [none, none, some [PyObj.str "c", PyObj.str "b", PyObj.str "a"]] ∧
    (List.reverse [PyObj.str "a", PyObj.str "b", PyObj.str "c"]).Perm
      [PyObj.str "a", PyObj.str "b", PyObj.str "c"] := by
  have h := update_taskset_exactly_once "ts" (some 60)
    [PyObj.str "a", PyObj.str "b", PyObj.str "c"] mq0 (by decide) (by decide)
  exact ⟨by simpa using h.1, h.2⟩

/-- Claim C10: every broker starts with the reserved stop task registered
under `<stop_task>`; `expose` (the only registry-mutating operation) never
removes it, in success or failure; and exposing any bundle containing the
name `<stop_task>` fails with the naming-conflict `ValueError`. -/
theorem stop_task_always_registered :
    (∀ qn, alookup stopTaskName (Broker.init qn).tasks = some TaskFunc.stopTask) ∧
    (∀ (b : Broker) (sp : List (String × TaskFunc)),
      (alookup stopTaskName b.tasks).isSome →
      (alookup stopTaskName (Broker.expose b sp).2.tasks).isSome) ∧
    (∀ (b : Broker) (sp : List (String × TaskFunc)) (f : TaskFunc),
      (alookup stopTaskName b.tasks).isSome → (stopTaskName, f) ∈ sp →
      ∃ m, (Broker.expose b sp).1 = Except.error (PyErr.valueError m)) := by
  refine ⟨?_, ?_, ?_⟩
  · intro qn
    simp [Broker.init, alookup]
  · intro b sp h
    exact expose_preserves_lookup stopTaskName sp b h
  · intro b sp f h hmem
    exact expose_conflict_fails stopTaskName sp b f h hmem

/-- Claim C10, witness: the fresh broker has the stop task registered,
keeps it across a successful expose, and rejects a bundle that tries to
register `<stop_task>`. -/
theorem stop_task_always_registered_witness :
    alookup stopTaskName (Broker.init "default").tasks = some TaskFunc.stopTask ∧
    (alookup stopTaskName
      (Broker.expose broker0 [("f", TaskFunc.userFunc (Except.ok ()))]).2.tasks).isSome ∧
    ∃ m, (Broker.expose broker0
      [(stopTaskName, TaskFunc.userFunc (Except.ok ()))]).1 =
        Except.error (PyErr.valueError m) := by
  refine ⟨stop_task_always_registered.1 "default",
    stop_task_always_registered.2.1 broker0
      [("f", TaskFunc.userFunc (Except.ok ()))] rfl,
    stop_task_always_registered.2.2 broker0
      [(stopTaskName, TaskFunc.userFunc (Except.ok ()))]
      (TaskFunc.userFunc (Except.ok ())) rfl (List.mem_singleton.2 rfl)⟩

end WorqModel
